import Mathlib

/-!
Shallow embedding of the adaptive Telegram fingerprinting core
(`src/telegram_strategy.ts`, the behavioral collector and the haptic/network
collectors of the repository) and proofs of the specification claims.

JavaScript numbers are modelled as exact rationals (ℚ); all arithmetic in
the embedded code stays well within the range where IEEE doubles are exact
or where only the order of magnitude matters.  JavaScript values (the
entries of a component bag) are modelled by the inductive `JSVal` with JS
truthiness, property access and `||` defaulting.  The ambient environment
probe `detectTelegramEnvironment()` (a read of `navigator.userAgent` and
`window.Telegram`) is modelled as an explicit boolean parameter
`isTelegram`, since the strategy only consumes its boolean result.
-/

namespace TgFp

/-- Model of a JavaScript runtime value as stored in a component bag:
a string, a number, a boolean, `null`, `undefined`, or an object given by
its ordered own properties. -/
inductive JSVal where
  | str (s : String) : JSVal
  | num (q : ℚ) : JSVal
  | bool (b : Bool) : JSVal
  | null : JSVal
  | undefined : JSVal
  | obj (fields : List (String × JSVal)) : JSVal

/-- JavaScript truthiness: `""`, `0`, `false`, `null`, `undefined` are falsy,
every other value (every object in particular) is truthy. -/
def truthy : JSVal → Bool
  | .str s => !(s == "")
  | .num q => decide (q ≠ 0)
  | .bool b => b
  | .null => false
  | .undefined => false
  | .obj _ => true

/-- Property access `v.k` (under optional chaining for `null`/`undefined`):
field lookup on objects, `undefined` on everything else. -/
def getField (v : JSVal) (k : String) : JSVal :=
  match v with
  | .obj fields =>
    match fields.lookup k with
    | some fv => fv
    | none => JSVal.undefined
  | _ => JSVal.undefined

/-- JavaScript `a || b`: the left value when truthy, otherwise the right. -/
def jsOr (a b : JSVal) : JSVal :=
  if truthy a then a else b

/-- Strict string equality test `v === s` against a string literal. -/
def jsIsStr (v : JSVal) (s : String) : Bool :=
  match v with
  | .str t => t == s
  | _ => false

/-- Model of `String.prototype.includes`: substring containment, checked by
scanning every suffix of the haystack character list. -/
def listInfixCheck (needle : List Char) : List Char → Bool
  | [] => needle.isEmpty
  | c :: rest => needle.isPrefixOf (c :: rest) || listInfixCheck needle rest

/-- The `haystack.includes(needle)` test on strings. -/
def strIncludes (haystack needle : String) : Bool :=
  listInfixCheck needle.data haystack.data

/-- A component bag: the ordered own entries of the JS components object
(`Object.entries` order). -/
def Bag : Type := List (String × JSVal)

/-- Bag read used by `extractTelegramContext`:
`'k' in components ? components.k : null`. -/
def bagComponentOrNull (bag : Bag) (k : String) : JSVal :=
  match List.lookup k bag with
  | some v => v
  | none => JSVal.null

/-- Baseline weight table (`baseWeights` object literal of
`adjustSourceWeights`, before any Telegram adjustment). -/
def baseWeights : String → Option ℚ
  | "canvas" => some (8/10)
  | "audio" => some (6/10)
  | "fonts" => some (7/10)
  | "webGlBasics" => some (7/10)
  | "webGlExtensions" => some (7/10)
  | "platform" => some 1
  | "hardwareConcurrency" => some 1
  | "deviceMemory" => some 1
  | "screenResolution" => some (9/10)
  | "screenFrame" => some (9/10)
  | "timezone" => some (12/10)
  | "telegramWebApp" => some 1
  | "behavioral" => some 1
  | "webView" => some 1
  | "network" => some 1
  | "haptic" => some 1
  | "languages" => some (11/10)
  | "colorDepth" => some 1
  | "touchSupport" => some (11/10)
  | "vendor" => some (9/10)
  | "vendorFlavors" => some (9/10)
  | "osCpu" => some 1
  | _ => none

/-- Telegram override table (`telegramWeights` object literal applied via
`Object.assign` when the environment is Telegram). -/
def telegramOverrideWeights : String → Option ℚ
  | "canvas" => some (4/10)
  | "audio" => some (3/10)
  | "fonts" => some (5/10)
  | "plugins" => some (1/10)
  | "telegramWebApp" => some (25/10)
  | "webView" => some 2
  | "behavioral" => some (22/10)
  | "haptic" => some (18/10)
  | "network" => some (16/10)
  | "platform" => some (13/10)
  | "vendor" => some (12/10)
  | "vendorFlavors" => some (15/10)
  | "timezone" => some (14/10)
  | "languages" => some (13/10)
  | "touchSupport" => some (14/10)
  | "colorGamut" => some (11/10)
  | "reducedMotion" => some (11/10)
  | "hardwareConcurrency" => some (12/10)
  | "deviceMemory" => some (12/10)
  | "screenResolution" => some (11/10)
  | _ => none

/-- Result of `Object.assign(baseWeights, telegramWeights)`: a key present
in the override wins, otherwise the baseline entry is kept. -/
def mergedWeights (k : String) : Option ℚ :=
  match telegramOverrideWeights k with
  | some v => some v
  | none => baseWeights k

/-- Weight table attached by `adjustSourceWeights`, as a function of the
environment classification. -/
def adjustedWeights (isTelegram : Bool) : String → Option ℚ :=
  if isTelegram then mergedWeights else baseWeights

/-- Execution context extracted from the component bag
(`extractTelegramContext`).  Fields that the source stores as
"truthy value or default" keep the raw `JSVal`; `hasBehavioralData`
is coerced to a boolean by `!!` in the source. -/
structure TelegramContext where
  isTelegramWebView : JSVal
  telegramVersion : JSVal
  webViewType : JSVal
  hasHapticFeedback : JSVal
  hasBehavioralData : Bool
  networkQuality : JSVal

/-- Embedding of `extractTelegramContext(components)`. -/
def extractTelegramContext (bag : Bag) : TelegramContext :=
  let telegramData := bagComponentOrNull bag "telegramWebApp"
  let webViewData := bagComponentOrNull bag "webView"
  let hapticData := bagComponentOrNull bag "haptic"
  let behavioralData := bagComponentOrNull bag "behavioral"
  let networkData := bagComponentOrNull bag "network"
  { isTelegramWebView := jsOr (getField telegramData "isTelegramWebView") (JSVal.bool false)
    telegramVersion := jsOr (getField telegramData "telegramVersion") JSVal.null
    webViewType := jsOr (getField webViewData "webViewType") (JSVal.str "unknown")
    hasHapticFeedback := jsOr (getField hapticData "isAvailable") (JSVal.bool false)
    hasBehavioralData :=
      truthy (getField behavioralData "touchPatterns") ||
        truthy (getField behavioralData "motionSignature")
    networkQuality :=
      jsOr (getField (getField networkData "networkPerformance") "networkQuality")
        (JSVal.str "unknown") }

/-- Core of `calculateStabilityScore`: the score depends on the bag and the
context only through these seven boolean conditions, accumulated into the
`stabilityFactors` / `totalFactors` pair exactly as in the source. -/
def stabilityOfFlags (hasPlatform hasTimezone hasHardware hasLanguages
    isTg hasVersion hasHaptic : Bool) : ℚ :=
  let stabilityFactors : ℚ :=
    (if hasPlatform then 1 else 0) + (if hasTimezone then 1 else 0) +
      (if hasHardware then 1 else 0) + (if hasLanguages then 1 else 0) +
      (if isTg then (if hasVersion then 1 else 0) + (if hasHaptic then 1/2 else 0) else 0)
  let totalFactors : ℚ :=
    (if hasPlatform then 1 else 0) + (if hasTimezone then 1 else 0) +
      (if hasHardware then 1 else 0) + (if hasLanguages then 1 else 0) +
      (if isTg then 3/2 else 0)
  if 0 < totalFactors then stabilityFactors / totalFactors else 1/2

/-- Embedding of `calculateStabilityScore(components, context)`.  The
structural checks use the JS `in` operator, i.e. key presence regardless of
the stored value. -/
def calculateStabilityScore (bag : Bag) (context : TelegramContext) : ℚ :=
  stabilityOfFlags
    (List.lookup "platform" bag).isSome
    (List.lookup "timezone" bag).isSome
    ((List.lookup "hardwareConcurrency" bag).isSome && (List.lookup "deviceMemory" bag).isSome)
    (List.lookup "languages" bag).isSome
    (truthy context.isTelegramWebView)
    (truthy context.telegramVersion)
    (truthy context.hasHapticFeedback)

/-- Result record of `getEnhancedConfidenceScore`. -/
structure EnhancedConfidence where
  score : ℚ
  telegramAdjustment : Bool
  behavioralFactor : ℚ
  webViewFactor : ℚ
  hapticFactor : ℚ
  networkFactor : ℚ
  stabilityScore : ℚ

/-- Embedding of `getEnhancedConfidenceScore(components)`; `isTelegram` is
the result of the environment probe `detectTelegramEnvironment()`. -/
def getEnhancedConfidenceScore (isTelegram : Bool) (bag : Bag) : EnhancedConfidence :=
  let context := extractTelegramContext bag
  let baseScore : ℚ :=
    match List.lookup "platform" bag with
    | some platformComponent =>
      if truthy platformComponent then
        let platform := jsOr (getField platformComponent "value") platformComponent
        match platform with
        | JSVal.str s =>
          if strIncludes s "iPhone" || strIncludes s "iPad" then 1/2 + 1/10
          else if strIncludes s "Android" then 1/2 + 1/20
          else 1/2
        | _ => 1/2
      else 1/2
    | none => 1/2
  let behavioralFactor : ℚ :=
    match List.lookup "behavioral" bag with
    | some behavioral =>
      if truthy behavioral &&
          (truthy (getField behavioral "touchPatterns") ||
            truthy (getField behavioral "motionSignature")) then 1/5 else 0
    | none => 0
  let webViewFactor : ℚ :=
    match List.lookup "webView" bag with
    | some webView =>
      if truthy webView && truthy (getField webView "isWebView") &&
          jsIsStr (getField webView "webViewType") "telegram" then 1/4 else 0
    | none => 0
  let hapticFactor : ℚ :=
    match List.lookup "haptic" bag with
    | some haptic =>
      if truthy haptic && truthy (getField haptic "isAvailable") &&
          truthy (getField haptic "isTelegramHaptic") then 3/20 else 0
    | none => 0
  let networkFactor : ℚ :=
    match List.lookup "network" bag with
    | some network =>
      if truthy network && truthy (getField network "connectionInfo") &&
          truthy (getField network "ipBasedEntropy") then 1/10 else 0
    | none => 0
  let stabilityScore := calculateStabilityScore bag context
  let finalScore : ℚ :=
    if isTelegram then
      let capped :=
        min (9/10) (baseScore + behavioralFactor + webViewFactor + hapticFactor + networkFactor)
      if context.hasBehavioralData && truthy context.hasHapticFeedback then capped + 1/20
      else capped
    else
      min (85/100) (baseScore + (behavioralFactor + networkFactor) * (1/2))
  { score := max (1/10) (min (9/10) finalScore)
    telegramAdjustment := isTelegram
    behavioralFactor := behavioralFactor
    webViewFactor := webViewFactor
    hapticFactor := hapticFactor
    networkFactor := networkFactor
    stabilityScore := stabilityScore }

/-- Conversion of a value by JS string interpolation / `String(...)`.
Number formatting is rendered through the rational printer; only
determinism and injectivity on the values actually reached matter for the
claims, not the exact digit format. -/
def jsToString : JSVal → String
  | .str s => s
  | .num q => toString q
  | .bool b => cond b "true" "false"
  | .null => "null"
  | .undefined => "undefined"
  | .obj _ => "[object Object]"

mutual

/-- Deterministic serialization modelling `JSON.stringify` on the modelled
value space (string escaping omitted: no serialized key or value in scope
contains a quote). -/
def jsonStringify : JSVal → String
  | .str s => "\"" ++ s ++ "\""
  | .num q => toString q
  | .bool b => cond b "true" "false"
  | .null => "null"
  | .undefined => "null"
  | .obj fields => "\x7b" ++ String.intercalate "," (jsonFields fields) ++ "\x7d"

/-- Serialization of an object's fields; properties holding `undefined` are
omitted, as `JSON.stringify` does. -/
def jsonFields : List (String × JSVal) → List String
  | [] => []
  | (k, v) :: rest =>
    match v with
    | .undefined => jsonFields rest
    | other => ("\"" ++ k ++ "\":" ++ jsonStringify other) :: jsonFields rest

end

/-- Textual form of one component in `generateTelegramSpecificFingerprint`:
objects expose their `value` property when present (even an `undefined`
one), other objects are JSON-serialized, primitives go through `String()`. -/
def componentValueString (component : JSVal) : String :=
  match component with
  | .obj fields =>
    match fields.lookup "value" with
    | some fv => jsToString fv
    | none => jsonStringify (.obj fields)
  | other => jsToString other

/-- Weight lookup `weights[key] || 1.0`: a missing entry — or a zero one,
by JS falsiness — defaults to `1.0`. -/
def jsWeightOf (weights : String → Option ℚ) (k : String) : ℚ :=
  match weights k with
  | some v => if v = 0 then 1 else v
  | none => 1

/-- Number of repetitions of a key's token:
`Math.max(1, Math.round(weight * 10))`. -/
def tokenReps (weights : String → Option ℚ) (k : String) : ℕ :=
  (max 1 (round (jsWeightOf weights k * 10))).toNat

/-- The component-token part of the synthesizer: the two nested `for` loops
pushing onto `weightedInputs`, as left folds.  Keys starting with `_` are
skipped. -/
def generateTokens (weights : String → Option ℚ) (bag : Bag) : List String :=
  bag.foldl
    (fun acc kv =>
      if kv.1.startsWith "_" then acc
      else
        let value := componentValueString kv.2
        let token := kv.1 ++ ":" ++ value
        (List.range (tokenReps weights kv.1)).foldl (fun a _ => a ++ [token]) acc)
    []

/-- Context tokens appended after all component tokens. -/
def contextTokens (context : TelegramContext) : List String :=
  ["telegram:" ++ jsToString context.isTelegramWebView,
   "version:" ++ jsToString (jsOr context.telegramVersion (JSVal.str "unknown")),
   "webview:" ++ jsToString context.webViewType]

/-- 32-bit signed wrap-around, the effect of `hash & hash` (ToInt32). -/
def int32wrap (x : ℤ) : ℤ :=
  (x + 2 ^ 31) % 2 ^ 32 - 2 ^ 31

/-- One step of `simpleHash`:
`hash = ((hash << 5) - hash) + char; hash = hash & hash`.  The shift
truncates to 32 bits; the subtraction and addition are exact in doubles at
these magnitudes. -/
def hashStep (h : ℤ) (c : Char) : ℤ :=
  int32wrap (int32wrap (h * 32) - h + (c.toNat : ℤ))

/-- Lowercase hexadecimal rendering of a natural number
(`Math.abs(hash).toString(16)`). -/
def natToHex (n : ℕ) : String :=
  String.mk (Nat.toDigits 16 n)

/-- Embedding of `simpleHash(str)`. -/
def simpleHash (s : String) : String :=
  natToHex (s.data.foldl hashStep 0).natAbs

/-- The enriched component object produced by `adjustSourceWeights`:
the original entries plus `_weights` and `_telegramContext`. -/
structure EnhancedComponents where
  components : Bag
  weights : String → Option ℚ
  telegramContext : TelegramContext

/-- Embedding of `adjustSourceWeights(components)`. -/
def adjustSourceWeights (isTelegram : Bool) (bag : Bag) : EnhancedComponents :=
  { components := bag
    weights := adjustedWeights isTelegram
    telegramContext := extractTelegramContext bag }

/-- Embedding of `generateTelegramSpecificFingerprint(components)`:
weighted token list, context tokens, `|`-join, rolling hash. -/
def generateTelegramSpecificFingerprint (isTelegram : Bool) (bag : Bag) : String :=
  let enhanced := adjustSourceWeights isTelegram bag
  let weightedInputs := generateTokens enhanced.weights bag
  let allInputs := weightedInputs ++ contextTokens enhanced.telegramContext
  simpleHash (String.intercalate "|" allInputs)

/-! Behavioral feature extractor (`BehavioralCollector` of the behavioral
source file).  `Math.sqrt`, `Math.atan2`, `Math.PI` and the two
`Math.random()` calls (the placeholder elastic-bounce and scroll-to-touch
values) are modelled as an explicit environment record `MathEnv`; no claim
depends on their values. -/

/-- Oracle for the transcendental / nondeterministic JS primitives used by
the behavioral analyzers. -/
structure MathEnv where
  sq : ℚ → ℚ
  atan2 : ℚ → ℚ → ℚ
  pi : ℚ
  randElastic : ℚ
  randDelay : ℚ

/-- Kind of a collected touch event: the collector only registers handlers
for `touchstart`, `touchmove` and `touchend` (`setupEventListeners`). -/
inductive TouchKind where
  | start : TouchKind
  | move : TouchKind
  | finish : TouchKind
deriving DecidableEq, BEq

/-- The DOM `event.type` string of a collected touch event. -/
def TouchKind.typeName : TouchKind → String
  | .start => "touchstart"
  | .move => "touchmove"
  | .finish => "touchend"

/-- One `Touch` point: coordinates are always numbers; `force`, `radiusX`
and `radiusY` may be absent on the platform (`t.force || 0` in the source). -/
structure TouchPoint where
  clientX : ℚ
  clientY : ℚ
  force : Option ℚ
  radiusX : Option ℚ
  radiusY : Option ℚ

/-- One collected `TouchEvent`. -/
structure TouchEv where
  kind : TouchKind
  timeStamp : ℚ
  touches : List TouchPoint

/-- One collected scroll sample (`scrollHandler` record). -/
structure ScrollSample where
  timestamp : ℚ
  scrollY : ℚ
  scrollX : ℚ

/-- One collected device-motion sample; per-axis acceleration entries may
be null (`a.x || 0` in the source). -/
structure MotionSample where
  timestamp : ℚ
  ax : Option ℚ
  ay : Option ℚ
  az : Option ℚ

/-- The behavioral sample window: the collector's accumulated raw data. -/
structure Window where
  touchData : List TouchEv
  scrollData : List ScrollSample
  motionData : List MotionSample

/-- Sum by `reduce((a, b) => a + b, 0)`. -/
def listSum (l : List ℚ) : ℚ := l.foldl (· + ·) 0

/-- The guarded mean `l.length > 0 ? sum / length : 0` used throughout. -/
def jsMean (l : List ℚ) : ℚ :=
  if 0 < l.length then listSum l / l.length else 0

/-- Consecutive pairs `(l[i-1], l[i])` of the `for (i = 1; ...)` loops. -/
def pairsOf (l : List α) : List (α × α) := l.zip l.tail

/-- `Math.max(...l)` on the nonempty lists where the source applies it. -/
def jsMaxList (l : List ℚ) : ℚ :=
  match l with
  | [] => 0
  | h :: t => t.foldl max h

/-- `Math.min(...l)` on the nonempty lists where the source applies it. -/
def jsMinList (l : List ℚ) : ℚ :=
  match l with
  | [] => 0
  | h :: t => t.foldl min h

/-- `Array.prototype.flatMap`. -/
def flatMapList (f : α → List β) : List α → List β
  | [] => []
  | a :: rest => f a ++ flatMapList f rest

/-- Fields of a non-null touch-pattern feature group. -/
structure TouchPattern where
  averagePressure : ℚ
  averageArea : ℚ
  averageVelocity : ℚ
  touchDuration : ℚ
  touchFrequency : ℚ
  gestureComplexity : ℚ
  touchPointVariation : ℚ

/-- Fields of a non-null scroll-behavior feature group; `scrollDirection`
holds one of `"vertical" | "horizontal" | "both" | "none"`. -/
structure ScrollBehaviorFeatures where
  averageScrollSpeed : ℚ
  scrollAcceleration : ℚ
  scrollDeceleration : ℚ
  momentumPattern : ℚ
  elasticBounceSignature : ℚ
  scrollDirection : String
  scrollConsistency : ℚ

/-- Fields of a non-null timing feature group. -/
structure TimingFingerprint where
  averageReactionTime : ℚ
  keyboardInputTiming : ℚ
  scrollToTouchDelay : ℚ
  focusBlurPattern : ℚ
  interactionInterval : ℚ
  timingVariability : ℚ

/-- Fields of a non-null interaction-rhythm feature group. -/
structure InteractionRhythm where
  tapRhythm : ℚ
  scrollRhythm : ℚ
  pausePatterns : List ℚ
  interactionSequence : String
  rhythmConsistency : ℚ

/-- Fields of a non-null motion-signature feature group. -/
structure MotionSignature where
  handTremor : ℚ
  scrollStability : ℚ
  touchPrecision : ℚ
  gestureFlowness : ℚ
  movementEntropy : ℚ

/-- Embedding of `calculateGestureComplexity`. -/
def calculateGestureComplexity (touchData : List TouchEv) : ℚ :=
  min ((touchData.length : ℚ) / 10) 1

/-- Embedding of `calculateTouchPointVariation`. -/
def calculateTouchPointVariation (env : MathEnv) (touchData : List TouchEv) : ℚ :=
  let positions := flatMapList (fun e => e.touches.map (fun t => (t.clientX, t.clientY))) touchData
  if positions.length < 2 then 0
  else
    let avgX := listSum (positions.map (·.1)) / positions.length
    let avgY := listSum (positions.map (·.2)) / positions.length
    let variations := positions.map (fun p => env.sq ((p.1 - avgX) ^ 2 + (p.2 - avgY) ^ 2))
    listSum variations / variations.length

/-- Embedding of `analyzeTouchPatterns`. -/
def analyzeTouchPatterns (env : MathEnv) (w : Window) : Option TouchPattern :=
  if w.touchData.length = 0 then none
  else
    let touches := flatMapList TouchEv.touches w.touchData
    if touches.length = 0 then none
    else
      let pressures := (touches.map (fun t => t.force.getD 0)).filter (fun p => decide (0 < p))
      let areas :=
        (touches.map (fun t => t.radiusX.getD 0 * t.radiusY.getD 0)).filter
          (fun a => decide (0 < a))
      let touchStarts := w.touchData.filter (fun e => e.kind == TouchKind.start)
      let touchEnds := w.touchData.filter (fun e => e.kind == TouchKind.finish)
      let startEndPairs := touchStarts.zip touchEnds
      let totalDuration := listSum (startEndPairs.map (fun p => p.2.timeStamp - p.1.timeStamp))
      let touchCount : ℕ := startEndPairs.length
      let touchMoves := w.touchData.filter (fun e => e.kind == TouchKind.move)
      let velocities := (pairsOf touchMoves).filterMap (fun pc =>
        match pc.1.touches, pc.2.touches with
        | prevTouch :: _, currTouch :: _ =>
          let distance := env.sq ((currTouch.clientX - prevTouch.clientX) ^ 2 +
            (currTouch.clientY - prevTouch.clientY) ^ 2)
          let timeDiff := pc.2.timeStamp - pc.1.timeStamp
          if 0 < timeDiff then some (distance / timeDiff) else none
        | _, _ => none)
      some
        { averagePressure := jsMean pressures
          averageArea := jsMean areas
          averageVelocity := jsMean velocities
          touchDuration := if 0 < touchCount then totalDuration / touchCount else 0
          touchFrequency := (touchCount : ℚ) / (3000 / 1000)
          gestureComplexity := calculateGestureComplexity w.touchData
          touchPointVariation := calculateTouchPointVariation env w.touchData }

/-- Embedding of `calculateScrollDeceleration`. -/
def calculateScrollDeceleration (speeds : List ℚ) : ℚ :=
  if speeds.length < 3 then 0
  else
    let third := speeds.length / 3
    let lastThird := speeds.drop (speeds.length - third)
    let firstThird := speeds.take third
    let avgLast := listSum lastThird / lastThird.length
    let avgFirst := listSum firstThird / firstThird.length
    max 0 (avgFirst - avgLast)

/-- Embedding of `calculateMomentumPattern`. -/
def calculateMomentumPattern (speeds : List ℚ) : ℚ :=
  if speeds.length = 0 then 0
  else
    let maxSpeed := jsMaxList speeds
    let avgSpeed := listSum speeds / speeds.length
    if 0 < maxSpeed then avgSpeed / maxSpeed else 0

/-- Embedding of `determineScrollDirection`. -/
def determineScrollDirection (scrollData : List ScrollSample) : String :=
  if scrollData.length < 2 then "none"
  else
    let verticalMovement :=
      listSum ((pairsOf scrollData).map (fun pc => |pc.2.scrollY - pc.1.scrollY|))
    let horizontalMovement :=
      listSum ((pairsOf scrollData).map (fun pc => |pc.2.scrollX - pc.1.scrollX|))
    if horizontalMovement * 2 < verticalMovement then "vertical"
    else if verticalMovement * 2 < horizontalMovement then "horizontal"
    else if 0 < verticalMovement ∨ 0 < horizontalMovement then "both"
    else "none"

/-- Embedding of `calculateScrollConsistency`. -/
def calculateScrollConsistency (env : MathEnv) (speeds : List ℚ) : ℚ :=
  if speeds.length = 0 then 0
  else
    let avg := listSum speeds / speeds.length
    let variance := listSum (speeds.map (fun s => (s - avg) ^ 2)) / speeds.length
    if 0 < avg then 1 - min (env.sq variance / avg) 1 else 0

/-- Embedding of `analyzeScrollBehavior`, with the speed/acceleration
accumulation loop rendered as a left fold over consecutive sample pairs. -/
def analyzeScrollBehavior (env : MathEnv) (w : Window) : Option ScrollBehaviorFeatures :=
  if w.scrollData.length < 2 then none
  else
    let state := (pairsOf w.scrollData).foldl
      (fun (st : List ℚ × List ℚ × ℚ) pc =>
        let distance := env.sq ((pc.2.scrollX - pc.1.scrollX) ^ 2 +
          (pc.2.scrollY - pc.1.scrollY) ^ 2)
        let timeDiff := pc.2.timestamp - pc.1.timestamp
        if 0 < timeDiff then
          let speed := distance / timeDiff
          let accelerations :=
            match st.1.getLast? with
            | some prevSpeed => st.2.1 ++ [(speed - prevSpeed) / timeDiff]
            | none => st.2.1
          (st.1 ++ [speed], accelerations, st.2.2 + distance)
        else st)
      ([], [], 0)
    let speeds := state.1
    let accelerations := state.2.1
    some
      { averageScrollSpeed := jsMean speeds
        scrollAcceleration := |jsMean accelerations|
        scrollDeceleration := calculateScrollDeceleration speeds
        momentumPattern := calculateMomentumPattern speeds
        elasticBounceSignature := env.randElastic * (1/10)
        scrollDirection := determineScrollDirection w.scrollData
        scrollConsistency := calculateScrollConsistency env speeds }

/-- Embedding of `analyzeTimingPatterns`. -/
def analyzeTimingPatterns (env : MathEnv) (w : Window) : Option TimingFingerprint :=
  if w.touchData.length = 0 then none
  else
    let intervals := (pairsOf w.touchData).map (fun pc => pc.2.timeStamp - pc.1.timeStamp)
    let averageInterval := jsMean intervals
    let variance :=
      if 0 < intervals.length then
        listSum (intervals.map (fun i => (i - averageInterval) ^ 2)) / intervals.length
      else 0
    some
      { averageReactionTime := averageInterval
        keyboardInputTiming := 0
        scrollToTouchDelay := env.randDelay * 100
        focusBlurPattern := 0
        interactionInterval := averageInterval
        timingVariability := env.sq variance }

/-- Embedding of `calculateScrollRhythm`. -/
def calculateScrollRhythm (scrollData : List ScrollSample) : ℚ :=
  if scrollData.length < 2 then 0
  else
    let intervals := (pairsOf scrollData).map (fun pc => pc.2.timestamp - pc.1.timestamp)
    let avgInterval := listSum intervals / intervals.length
    if 0 < avgInterval then 1000 / avgInterval else 0

/-- Embedding of `findPausePatterns`. -/
def findPausePatterns (intervals : List ℚ) : List ℚ :=
  intervals.filter (fun interval => decide (500 < interval))

/-- First character of a string, as the string `charAt(0)` returns. -/
def jsCharAt0 (s : String) : String :=
  match s.data with
  | [] => ""
  | c :: _ => String.mk [c]

/-- List form of `.join('')`. -/
def joinAll : List String → String
  | [] => ""
  | s :: rest => s ++ joinAll rest

/-- Embedding of `generateInteractionSequence`:
`touchData.map(e => e.type.charAt(0)).join('')`. -/
def generateInteractionSequence (touchData : List TouchEv) : String :=
  joinAll (touchData.map (fun e => jsCharAt0 e.kind.typeName))

/-- Embedding of `calculateRhythmConsistency`. -/
def calculateRhythmConsistency (env : MathEnv) (intervals : List ℚ) : ℚ :=
  if intervals.length < 2 then 0
  else
    let avg := listSum intervals / intervals.length
    let variance := listSum (intervals.map (fun i => (i - avg) ^ 2)) / intervals.length
    if 0 < avg then max 0 (1 - env.sq variance / avg) else 0

/-- Embedding of `analyzeInteractionRhythm`. -/
def analyzeInteractionRhythm (env : MathEnv) (w : Window) : Option InteractionRhythm :=
  if w.touchData.length = 0 then none
  else
    let touchStarts := w.touchData.filter (fun e => e.kind == TouchKind.start)
    let tapIntervals := (pairsOf touchStarts).map (fun pc => pc.2.timeStamp - pc.1.timeStamp)
    let averageTapInterval := jsMean tapIntervals
    some
      { tapRhythm := if 0 < averageTapInterval then 1000 / averageTapInterval else 0
        scrollRhythm := calculateScrollRhythm w.scrollData
        pausePatterns := findPausePatterns tapIntervals
        interactionSequence := generateInteractionSequence w.touchData
        rhythmConsistency := calculateRhythmConsistency env tapIntervals }

/-- Embedding of `calculateTremor`. -/
def calculateTremor (accelerations : List ℚ) : ℚ :=
  if accelerations.length < 2 then 0
  else
    let changes := (pairsOf accelerations).map (fun pc => |pc.2 - pc.1|)
    if 0 < changes.length then listSum changes / changes.length else 0

/-- Embedding of `calculateScrollStability`. -/
def calculateScrollStability (scrollData : List ScrollSample) : ℚ :=
  if scrollData.length < 2 then 1
  else
    let stability := listSum ((pairsOf scrollData).map
      (fun pc => |pc.2.scrollY - pc.1.scrollY| + |pc.2.scrollX - pc.1.scrollX|))
    max 0 (1 - stability / 1000)

/-- Embedding of `calculateTouchPrecision`
(`e.touches[0]?.clientX || 0`). -/
def calculateTouchPrecision (env : MathEnv) (touchData : List TouchEv) : ℚ :=
  let touchStarts := touchData.filter (fun e => e.kind == TouchKind.start)
  if touchStarts.length < 2 then 1
  else
    let positions := touchStarts.map (fun e =>
      match e.touches with
      | t :: _ => (t.clientX, t.clientY)
      | [] => ((0 : ℚ), (0 : ℚ)))
    let totalVariation := listSum ((pairsOf positions).map (fun pc =>
      env.sq ((pc.2.1 - pc.1.1) ^ 2 + (pc.2.2 - pc.1.2) ^ 2)))
    let avgVariation := totalVariation / ((positions.length : ℚ) - 1)
    max 0 (1 - avgVariation / 100)

/-- Embedding of `calculateGestureFlowness`: consecutive touch-move triples
and their direction-angle changes. -/
def calculateGestureFlowness (env : MathEnv) (touchData : List TouchEv) : ℚ :=
  let touchMoves := touchData.filter (fun e => e.kind == TouchKind.move)
  if touchMoves.length < 3 then 1
  else
    let triples := touchMoves.zip (touchMoves.tail.zip touchMoves.tail.tail)
    let flowness := listSum (triples.map (fun t =>
      match t.1.touches, t.2.1.touches, t.2.2.touches with
      | p1 :: _, p2 :: _, p3 :: _ =>
        let angle1 := env.atan2 (p2.clientY - p1.clientY) (p2.clientX - p1.clientX)
        let angle2 := env.atan2 (p3.clientY - p2.clientY) (p3.clientX - p2.clientX)
        let angleDiff := |angle2 - angle1|
        min angleDiff (env.pi - angleDiff)
      | _, _, _ => 0))
    let avgAngleChange := flowness / ((touchMoves.length : ℚ) - 2)
    max 0 (1 - avgAngleChange / env.pi)

/-- Embedding of `calculateMovementEntropy`. -/
def calculateMovementEntropy (env : MathEnv) (motionData : List MotionSample) : ℚ :=
  if motionData.length = 0 then 0
  else
    let changes := motionData.map (fun a =>
      env.sq ((a.ax.getD 0) ^ 2 + (a.ay.getD 0) ^ 2 + (a.az.getD 0) ^ 2))
    let maxChange := jsMaxList changes
    let minChange := jsMinList changes
    if minChange < maxChange then (maxChange - minChange) / maxChange else 0

/-- Embedding of `analyzeMotionSignature`. -/
def analyzeMotionSignature (env : MathEnv) (w : Window) : Option MotionSignature :=
  if w.motionData.length = 0 then none
  else
    let xAccels := w.motionData.map (fun d => d.ax.getD 0)
    let yAccels := w.motionData.map (fun d => d.ay.getD 0)
    let zAccels := w.motionData.map (fun d => d.az.getD 0)
    some
      { handTremor := (calculateTremor xAccels + calculateTremor yAccels +
          calculateTremor zAccels) / 3
        scrollStability := calculateScrollStability w.scrollData
        touchPrecision := calculateTouchPrecision env w.touchData
        gestureFlowness := calculateGestureFlowness env w.touchData
        movementEntropy := calculateMovementEntropy env w.motionData }

/-- Result record of a behavioral collection
(`BehavioralFingerprint` interface). -/
structure BehavioralFingerprint where
  touchPatterns : Option TouchPattern
  scrollBehavior : Option ScrollBehaviorFeatures
  timingFingerprint : Option TimingFingerprint
  interactionRhythm : Option InteractionRhythm
  motionSignature : Option MotionSignature
  isCollecting : Bool

/-- Embedding of `generateFingerprint`: reduction of a frozen window. -/
def generateFingerprint (env : MathEnv) (w : Window) : BehavioralFingerprint :=
  { touchPatterns := analyzeTouchPatterns env w
    scrollBehavior := analyzeScrollBehavior env w
    timingFingerprint := analyzeTimingPatterns env w
    interactionRhythm := analyzeInteractionRhythm env w
    motionSignature := analyzeMotionSignature env w
    isCollecting := false }

/-- Synchronous outcome of a collection request: either an immediately
resolved fingerprint, or the start of a fresh 3-second window whose result
arrives when the window closes. -/
inductive CollectResponse where
  | immediate (fp : BehavioralFingerprint) : CollectResponse
  | started : CollectResponse

/-- Embedding of the exported `getBehavioralFingerprint()` guard over the
module-level singleton `behavioralCollector` (modelled as
`Option Window`, `some` while a collection is active).  The busy branch
resolves immediately with five `null` groups and `isCollecting: true` and
touches neither the flag nor the accumulated window; the idle branch
installs a fresh empty window.  The function is total: no branch throws. -/
def getBehavioralFingerprint (st : Option Window) : Option Window × CollectResponse :=
  match st with
  | some w =>
    (some w, CollectResponse.immediate
      { touchPatterns := none
        scrollBehavior := none
        timingFingerprint := none
        interactionRhythm := none
        motionSignature := none
        isCollecting := true })
  | none => (some { touchData := [], scrollData := [], motionData := [] },
      CollectResponse.started)

/-! Helper lemmas shared by the claim theorems. -/

/-- No baseline weight is zero, so the `|| 1.0` fallback in the synthesizer
never rewrites a present baseline entry. -/
lemma baseWeights_ne_some_zero (k : String) : baseWeights k ≠ some 0 := by
  unfold baseWeights
  split <;> simp

/-- No Telegram override weight is zero. -/
lemma telegramOverrideWeights_ne_some_zero (k : String) :
    telegramOverrideWeights k ≠ some 0 := by
  unfold telegramOverrideWeights
  split <;> simp

/-- No merged weight is zero. -/
lemma mergedWeights_ne_some_zero (k : String) : mergedWeights k ≠ some 0 := by
  unfold mergedWeights
  split
  · rename_i v heq
    intro hv
    exact telegramOverrideWeights_ne_some_zero k (heq.trans hv)
  · exact baseWeights_ne_some_zero k

/-- Neither attached weight table maps a key to zero. -/
lemma adjustedWeights_ne_some_zero (isTelegram : Bool) (k : String) :
    adjustedWeights isTelegram k ≠ some 0 := by
  cases isTelegram
  · exact baseWeights_ne_some_zero k
  · exact mergedWeights_ne_some_zero k

/-- On the tables the synthesizer actually uses, the JS `|| 1.0` lookup
coincides with plain defaulting to `1.0` for absent keys. -/
lemma jsWeightOf_adjustedWeights (isTelegram : Bool) (k : String) :
    jsWeightOf (adjustedWeights isTelegram) k = (adjustedWeights isTelegram k).getD 1 := by
  unfold jsWeightOf
  cases h : adjustedWeights isTelegram k with
  | none => rfl
  | some v =>
    have hv : v ≠ 0 := by
      intro hv0
      exact adjustedWeights_ne_some_zero isTelegram k (by rw [h, hv0])
    simp [hv]

/-- Claim C2: For every component bag — malformed or absent components included —
and either environment classification, the confidence score is clamped into
`[0.1, 0.9]`; and on the empty bag in a non-Telegram environment it is
exactly `0.5`. -/
theorem confidence_score_clamped :
    (∀ (isTelegram : Bool) (bag : Bag),
        1/10 ≤ (getEnhancedConfidenceScore isTelegram bag).score ∧
        (getEnhancedConfidenceScore isTelegram bag).score ≤ 9/10)
    ∧ (getEnhancedConfidenceScore false []).score = 1/2 := by
  constructor
  · intro isTelegram bag
    constructor
    · exact le_max_left _ _
    · exact max_le (by norm_num) (min_le_left _ _)
  · have h : (getEnhancedConfidenceScore false []).score =
        max (1/10) (min (9/10) (min (85/100) (1/2 + (0 + 0) * (1/2)))) := rfl
    rw [h]
    norm_num

/-- Claim C4: The weight adapter attaches the baseline table unchanged outside
the target context; in the target context the override is key-wise: keys
absent from the override set keep their baseline value, keys present take
the override value. -/
theorem adjustSourceWeights_override_spec :
    (∀ bag : Bag, (adjustSourceWeights false bag).weights = baseWeights)
    ∧ (∀ (bag : Bag) (k : String), telegramOverrideWeights k = none →
        (adjustSourceWeights true bag).weights k = baseWeights k)
    ∧ (∀ (bag : Bag) (k : String) (v : ℚ), telegramOverrideWeights k = some v →
        (adjustSourceWeights true bag).weights k = some v) := by
  refine ⟨fun bag => rfl, fun bag k hk => ?_, fun bag k v hk => ?_⟩
  · show mergedWeights k = baseWeights k
    unfold mergedWeights
    rw [hk]
  · show mergedWeights k = some v
    unfold mergedWeights
    rw [hk]

/-- Witness for `adjustSourceWeights_override_spec` at concrete keys:
`colorDepth` is not overridden and keeps its baseline entry, `canvas` is
overridden to `0.4`. -/
theorem adjustSourceWeights_override_spec_witness :
    (adjustSourceWeights false []).weights = baseWeights
    ∧ (adjustSourceWeights true []).weights "colorDepth" = baseWeights "colorDepth"
    ∧ (adjustSourceWeights true []).weights "canvas" = some (4/10) :=
  ⟨adjustSourceWeights_override_spec.1 [],
   adjustSourceWeights_override_spec.2.1 [] "colorDepth" rfl,
   adjustSourceWeights_override_spec.2.2 [] "canvas" (4/10) rfl⟩

/-- Claim C5: In the target context the attached table strictly lowers the
canvas and audio weights and strictly raises the telegramWebApp, webView
and behavioral weights, relative to the baseline table. -/
theorem telegram_weight_shifts (bag : Bag) :
    ((adjustSourceWeights true bag).weights "canvas").getD 1 <
      ((adjustSourceWeights false bag).weights "canvas").getD 1
    ∧ ((adjustSourceWeights true bag).weights "audio").getD 1 <
      ((adjustSourceWeights false bag).weights "audio").getD 1
    ∧ ((adjustSourceWeights false bag).weights "telegramWebApp").getD 1 <
      ((adjustSourceWeights true bag).weights "telegramWebApp").getD 1
    ∧ ((adjustSourceWeights false bag).weights "webView").getD 1 <
      ((adjustSourceWeights true bag).weights "webView").getD 1
    ∧ ((adjustSourceWeights false bag).weights "behavioral").getD 1 <
      ((adjustSourceWeights true bag).weights "behavioral").getD 1 := by
  norm_num [adjustSourceWeights, adjustedWeights, mergedWeights,
    telegramOverrideWeights, baseWeights]

set_option maxHeartbeats 1600000 in
/-- Claim C6: The stability score always lies in `[0, 1]`; it is exactly `0.5`
when none of the four structural signals is present and the context is not
the Telegram bridge; and in the bridge context the denominator carries the
four structural units plus `1.5`, while the numerator carries the
structural units plus `1.0` for a present host version plus `0.5` for
present haptic feedback. -/
theorem stabilityScore_spec (bag : Bag) (context : TelegramContext) :
    (0 ≤ calculateStabilityScore bag context ∧ calculateStabilityScore bag context ≤ 1)
    ∧ ((List.lookup "platform" bag).isSome = false →
        (List.lookup "timezone" bag).isSome = false →
        ((List.lookup "hardwareConcurrency" bag).isSome &&
          (List.lookup "deviceMemory" bag).isSome) = false →
        (List.lookup "languages" bag).isSome = false →
        truthy context.isTelegramWebView = false →
        calculateStabilityScore bag context = 1/2)
    ∧ (truthy context.isTelegramWebView = true →
        calculateStabilityScore bag context =
          ((if (List.lookup "platform" bag).isSome then (1:ℚ) else 0) +
            (if (List.lookup "timezone" bag).isSome then 1 else 0) +
            (if (List.lookup "hardwareConcurrency" bag).isSome &&
                (List.lookup "deviceMemory" bag).isSome then 1 else 0) +
            (if (List.lookup "languages" bag).isSome then 1 else 0) +
            ((if truthy context.telegramVersion then 1 else 0) +
              (if truthy context.hasHapticFeedback then 1/2 else 0))) /
          ((if (List.lookup "platform" bag).isSome then (1:ℚ) else 0) +
            (if (List.lookup "timezone" bag).isSome then 1 else 0) +
            (if (List.lookup "hardwareConcurrency" bag).isSome &&
                (List.lookup "deviceMemory" bag).isSome then 1 else 0) +
            (if (List.lookup "languages" bag).isSome then 1 else 0) + 3/2)) := by
  unfold calculateStabilityScore
  generalize (List.lookup "platform" bag).isSome = p
  generalize (List.lookup "timezone" bag).isSome = tz
  generalize ((List.lookup "hardwareConcurrency" bag).isSome &&
    (List.lookup "deviceMemory" bag).isSome) = hw
  generalize (List.lookup "languages" bag).isSome = lang
  generalize truthy context.isTelegramWebView = tg
  generalize truthy context.telegramVersion = ver
  generalize truthy context.hasHapticFeedback = hap
  cases p <;> cases tz <;> cases hw <;> cases lang <;> cases tg <;> cases ver <;> cases hap <;>
    norm_num [stabilityOfFlags]

/-- Witness for `stabilityScore_spec`: the empty bag with a non-bridge
context scores exactly `0.5`; the empty bag with a bridge context carrying
a version string and haptic feedback scores `(1 + 0.5) / 1.5 = 1`. -/
theorem stabilityScore_spec_witness :
    calculateStabilityScore []
      ⟨JSVal.bool false, JSVal.null, JSVal.str "unknown", JSVal.bool false, false,
        JSVal.str "unknown"⟩ = 1/2
    ∧ calculateStabilityScore []
      ⟨JSVal.bool true, JSVal.str "7.0", JSVal.str "unknown", JSVal.bool true, false,
        JSVal.str "unknown"⟩ = 1 := by
  constructor
  · exact (stabilityScore_spec [] _).2.1 rfl rfl rfl rfl rfl
  · have hv : ¬ ("7.0" : String) = "" := by decide
    rw [(stabilityScore_spec []
      ⟨JSVal.bool true, JSVal.str "7.0", JSVal.str "unknown", JSVal.bool true, false,
        JSVal.str "unknown"⟩).2.2 (by rfl)]
    norm_num [truthy, hv]

/-- Claim C9: On the bag `{platform: "iPhone", timezone: "exists", behavioral:
{touchPatterns: present}}` in the Telegram context, the scorer returns
`behavioralFactor = 0.2`, `webViewFactor = 0` and a final score of exactly
`min(0.9, 0.6 + 0.2) = 0.8`. -/
theorem iphone_example_confidence :
    (getEnhancedConfidenceScore true
      [("platform", JSVal.str "iPhone"), ("timezone", JSVal.str "exists"),
       ("behavioral", JSVal.obj [("touchPatterns", JSVal.obj [])])]).behavioralFactor = 1/5
    ∧ (getEnhancedConfidenceScore true
      [("platform", JSVal.str "iPhone"), ("timezone", JSVal.str "exists"),
       ("behavioral", JSVal.obj [("touchPatterns", JSVal.obj [])])]).webViewFactor = 0
    ∧ (getEnhancedConfidenceScore true
      [("platform", JSVal.str "iPhone"), ("timezone", JSVal.str "exists"),
       ("behavioral", JSVal.obj [("touchPatterns", JSVal.obj [])])]).score = 4/5 := by
  refine ⟨rfl, rfl, ?_⟩
  have h : (getEnhancedConfidenceScore true
      [("platform", JSVal.str "iPhone"), ("timezone", JSVal.str "exists"),
       ("behavioral", JSVal.obj [("touchPatterns", JSVal.obj [])])]).score =
      max (1/10) (min (9/10) (min (9/10) (1/2 + 1/10 + 1/5 + 0 + 0 + 0))) := rfl
  rw [h]
  norm_num

/-- The inner repetition loop appends exactly `n` copies of the token. -/
lemma range_foldl_push (token : String) (n : ℕ) (acc : List String) :
    (List.range n).foldl (fun a _ => a ++ [token]) acc = acc ++ List.replicate n token := by
  induction n generalizing acc with
  | zero => simp
  | succ m ih =>
    rw [List.range_succ, List.foldl_append, ih, List.replicate_succ']
    simp

/-- The outer loop of the synthesizer, characterized entry-wise. -/
lemma generateTokens_eq_flatMap (weights : String → Option ℚ) (bag : Bag) :
    generateTokens weights bag =
      flatMapList
        (fun kv => if kv.1.startsWith "_" then []
          else List.replicate (tokenReps weights kv.1) (kv.1 ++ ":" ++ componentValueString kv.2))
        bag := by
  suffices h : ∀ (entries : List (String × JSVal)) (acc : List String),
      entries.foldl
        (fun acc kv =>
          if kv.1.startsWith "_" then acc
          else
            let value := componentValueString kv.2
            let token := kv.1 ++ ":" ++ value
            (List.range (tokenReps weights kv.1)).foldl (fun a _ => a ++ [token]) acc)
        acc =
        acc ++ flatMapList
          (fun kv => if kv.1.startsWith "_" then []
            else List.replicate (tokenReps weights kv.1) (kv.1 ++ ":" ++ componentValueString kv.2))
          entries by
    simpa [generateTokens] using h bag []
  intro entries
  induction entries with
  | nil => intro acc; simp [flatMapList]
  | cons kv rest ih =>
    intro acc
    rw [List.foldl_cons, ih]
    by_cases hs : kv.1.startsWith "_" <;>
      simp [flatMapList, hs, range_foldl_push]

/-- Claim C3: In the synthesizer's token list, every key under the reserved
`_` prefix contributes no token, and every other key contributes exactly
`max(1, round(weight * 10))` copies of its `"key:value"` token, where the
weight is read from the attached table and defaults to `1.0` for absent
keys. -/
theorem synthesize_token_multiplicity (isTelegram : Bool) (bag : Bag) :
    generateTokens (adjustSourceWeights isTelegram bag).weights bag =
      flatMapList
        (fun kv =>
          if kv.1.startsWith "_" then []
          else
            List.replicate
              (max 1 (round ((((adjustSourceWeights isTelegram bag).weights kv.1).getD 1) * 10))).toNat
              (kv.1 ++ ":" ++ componentValueString kv.2))
        bag := by
  rw [generateTokens_eq_flatMap]
  show flatMapList _ bag = flatMapList _ bag
  simp only [adjustSourceWeights, tokenReps, jsWeightOf_adjustedWeights]

/-- Claim C1: The fingerprint synthesizer is deterministic — two
invocations on equal component bags under an equal environment
classification produce the identical digest string.  The embedded
computation consumes no clock, randomness or I/O, so the digest is a pure
function of the bag and the classification. -/
theorem synthesize_deterministic (isTelegram₁ isTelegram₂ : Bool) (bag₁ bag₂ : Bag)
    (henv : isTelegram₁ = isTelegram₂) (hbag : bag₁ = bag₂) :
    generateTelegramSpecificFingerprint isTelegram₁ bag₁ =
      generateTelegramSpecificFingerprint isTelegram₂ bag₂ := by
  rw [henv, hbag]

/-- Witness for `synthesize_deterministic` at a concrete bag and
environment. -/
theorem synthesize_deterministic_witness :
    generateTelegramSpecificFingerprint true [("platform", JSVal.str "iPhone")] =
      generateTelegramSpecificFingerprint true [("platform", JSVal.str "iPhone")] :=
  synthesize_deterministic true true [("platform", JSVal.str "iPhone")]
    [("platform", JSVal.str "iPhone")] rfl rfl

/-- Claim C7: A behavioral collection request issued while a collection is
active resolves immediately with all five feature groups `null` and
`isCollecting = true`, and leaves the in-progress sample window (and the
busy flag) untouched.  The embedded guard is a total function — no branch
raises. -/
theorem second_collection_request_noop (w : Window) :
    getBehavioralFingerprint (some w) =
      (some w, CollectResponse.immediate
        { touchPatterns := none
          scrollBehavior := none
          timingFingerprint := none
          interactionRhythm := none
          motionSignature := none
          isCollecting := true }) := rfl

/-- Counterexample to claim C8 as stated: a window holding exactly one
scroll sample has non-empty scroll data, yet `analyzeScrollBehavior`
returns `null`, because the analyzer requires at least two samples. -/
theorem feature_groups_null_counterexample :
    (Window.mk [] [ScrollSample.mk 0 0 0] []).scrollData ≠ []
    ∧ analyzeScrollBehavior
        { sq := id, atan2 := fun _ _ => 0, pi := 22/7, randElastic := 0, randDelay := 0 }
        (Window.mk [] [ScrollSample.mk 0 0 0] []) = none := by
  exact ⟨by simp, rfl⟩

/-- Claim C8 (amended): each feature group is `null` exactly at its own
emptiness threshold — touch patterns iff the window contains no touch
points at all, scroll behavior iff there are fewer than two scroll samples
(so a single sample also yields `null`), timing and interaction rhythm iff
there are zero touch events, motion signature iff there are zero motion
samples; above the threshold the group is a fully populated record. -/
theorem feature_groups_null_thresholds (env : MathEnv) (w : Window) :
    (analyzeTouchPatterns env w = none ↔ flatMapList TouchEv.touches w.touchData = [])
    ∧ (analyzeScrollBehavior env w = none ↔ w.scrollData.length < 2)
    ∧ (analyzeTimingPatterns env w = none ↔ w.touchData = [])
    ∧ (analyzeInteractionRhythm env w = none ↔ w.touchData = [])
    ∧ (analyzeMotionSignature env w = none ↔ w.motionData = []) := by
  refine ⟨?_, ?_, ?_, ?_, ?_⟩
  · by_cases h1 : w.touchData.length = 0
    · have he : w.touchData = [] := List.length_eq_zero.mp h1
      simp [analyzeTouchPatterns, h1, he, flatMapList]
    · by_cases h2 : (flatMapList TouchEv.touches w.touchData).length = 0
      · simp [analyzeTouchPatterns, h1, h2, List.length_eq_zero.mp h2]
      · simp only [analyzeTouchPatterns, if_neg h1, if_neg h2]
        simp [← List.length_eq_zero, h2]
  · by_cases h : w.scrollData.length < 2 <;> simp [analyzeScrollBehavior, h]
  · by_cases h : w.touchData.length = 0 <;>
      simp [analyzeTimingPatterns, h, ← List.length_eq_zero]
  · by_cases h : w.touchData.length = 0 <;>
      simp [analyzeInteractionRhythm, h, ← List.length_eq_zero]
  · by_cases h : w.motionData.length = 0 <;>
      simp [analyzeMotionSignature, h, ← List.length_eq_zero]

/-- Claim C10: the interaction-sequence code of a collected window is the
character `t` repeated once per collected touch event — the first letters
of `touchstart`, `touchmove` and `touchend` coincide, so the sequence never
distinguishes event kinds and its length equals the touch-event count. -/
theorem interaction_sequence_all_t (env : MathEnv) (w : Window) :
    (∀ r : InteractionRhythm, analyzeInteractionRhythm env w = some r →
      r.interactionSequence.data = List.replicate w.touchData.length 't')
    ∧ (generateInteractionSequence w.touchData).data =
        List.replicate w.touchData.length 't' := by
  have hseq : ∀ touchData : List TouchEv,
      (generateInteractionSequence touchData).data = List.replicate touchData.length 't' := by
    intro touchData
    induction touchData with
    | nil => rfl
    | cons e rest ih =>
      have hchar : jsCharAt0 e.kind.typeName = "t" := by cases e.kind <;> rfl
      simp only [generateInteractionSequence] at ih
      show (joinAll (jsCharAt0 e.kind.typeName ::
        rest.map (fun e => jsCharAt0 e.kind.typeName))).data =
        List.replicate (rest.length + 1) 't'
      rw [joinAll, hchar, String.data_append, ih, List.replicate_succ]
      rfl
  refine ⟨?_, hseq w.touchData⟩
  intro r hr
  by_cases h : w.touchData.length = 0
  · rw [analyzeInteractionRhythm, if_pos h] at hr
    exact absurd hr (by simp)
  · rw [analyzeInteractionRhythm, if_neg h] at hr
    have hr2 : r.interactionSequence = generateInteractionSequence w.touchData := by
      have hmap := congrArg (Option.map InteractionRhythm.interactionSequence) hr
      simpa using hmap.symm
    rw [hr2]
    exact hseq w.touchData

/-- Witness for `interaction_sequence_all_t`: a window holding one
`touchstart` event reduces to a rhythm record whose sequence code is the
single character `t`. -/
theorem interaction_sequence_all_t_witness :
    (InteractionRhythm.mk 0 0 [] "t" 0).interactionSequence.data =
      List.replicate (Window.mk [TouchEv.mk TouchKind.start 5 []] [] []).touchData.length 't' :=
  (interaction_sequence_all_t
    { sq := id, atan2 := fun _ _ => 0, pi := 22/7, randElastic := 0, randDelay := 0 }
    (Window.mk [TouchEv.mk TouchKind.start 5 []] [] [])).1
    (InteractionRhythm.mk 0 0 [] "t" 0) rfl

end TgFp
